import Mathlib

/-!
Verification of the buffer / typed-array subsystem of the repository
(`crates/napi/src/bindgen_runtime/js_values/{buffer,arraybuffer}.rs`).

The N-API host (the `sys::napi_*` primitives) is an external collaborator; it
is modelled here as a pure state `Host` with the contract of section 6 of the
design document: allocation of VM-owned byte regions (`napi_create_arraybuffer`
returns zero-initialised memory, `napi_create_buffer_copy` duplicates the
source bytes), external-buffer binding that either succeeds or reports
`napi_no_external_buffers_allowed`, and the external-memory accounting counter
(`napi_adjust_external_memory`).

Pointers and VM value handles are modelled as natural numbers; `0` is the null
pointer and `danglingPtr = 1` stands for the aligned dangling pointer Rust
uses for empty slices and empty `Vec`s (`NonNull::dangling`, `EMPTY_VEC`).
Native memory and VM-owned memory live in one allocation map `Host.mem`.

The debug backing-pointer registry (`BUFFER_DATA`) is declared `thread_local!`
in the source; the constructors below act on the current thread's set, stored
in `Host.registry`, while the thread-indexed model used to settle the aliasing
claim lives in `Registry` further down.
-/

namespace Napi3

/-- Null pointer. -/
def nullPtr : Nat := 0

/-- The aligned dangling pointer Rust produces for empty slices and empty
`Vec<u8>` (`NonNull::dangling()`, address = alignment = 1).  The static
`EMPTY_VEC` used by the `from_external` null checks has this address too. -/
def danglingPtr : Nat := 1

/-- `EMPTY_VEC.as_ptr()` from `env.rs`: the pointer of the process-wide empty
vector, compared against in every `from_external` constructor. -/
def EMPTY_VEC_ptr : Nat := danglingPtr

/-- The raw N-API status codes that matter to this subsystem. -/
inductive NapiStatus where
  | napi_ok
  | napi_no_external_buffers_allowed
deriving DecidableEq, Repr

/-- The crate-level `Status` of the errors this subsystem constructs. -/
inductive Status where
  | Ok
  | InvalidArg
  | GenericFailure
deriving DecidableEq, Repr

/-- A crate-level `Error`: status plus reason string. -/
structure ErrorH where
  status : Status
  reason : String
deriving DecidableEq, Repr

/-- A Rust `Vec` handed to a `from_data` constructor: its heap pointer, its
elements and its capacity.  An empty `Vec` has `ptr = danglingPtr`. -/
structure RVec where
  ptr : Nat
  elems : List Nat
  cap : Nat
deriving DecidableEq, Repr

/-- The modelled state of the N-API host plus the pieces of process state the
source uses: the external-memory accounting counter, the allocation map, the
current thread's debug backing-pointer set (`BUFFER_DATA`), the persistent
reference table, and whether a duplicate registration has aborted the
process. -/
structure Host where
  externalAllowed : Bool
  heapDelta : Int
  nextAlloc : Nat
  mem : List (Nat × List Nat)
  registry : List Nat
  refs : List (Nat × Nat)
  panicked : Bool
deriving DecidableEq, Repr

/-- A fresh host whose capability to adopt external buffers is `ext`. -/
def initHost (ext : Bool) : Host :=
  { externalAllowed := ext, heapDelta := 0, nextAlloc := 2, mem := [],
    registry := [], refs := [], panicked := false }

/-- Thread-local state of the source: the `IN_FINALISER` cell and the
`THREADS_CAN_ACCESS_ENV` cell. -/
structure ThreadState where
  in_finaliser : Bool
  threads_can_access_env : Bool
deriving DecidableEq, Repr

/-- Read the bytes of an allocation (empty if the pointer is unknown). -/
def memRead (h : Host) (p : Nat) : List Nat :=
  (h.mem.lookup p).getD []

/-- Overwrite the bytes of an allocation. -/
def memWrite (h : Host) (p : Nat) (bytes : List Nat) : Host :=
  { h with mem := (p, bytes) :: h.mem }

/-- `ptr::copy_nonoverlapping(src, dst, len)` on whole allocations. -/
def memCopy (h : Host) (src dst len : Nat) : Host :=
  memWrite h dst ((memRead h src).take len)

/-- Allocate a fresh region holding `bytes`; the returned pointer is never 0. -/
def hostAlloc (h : Host) (bytes : List Nat) : Host × Nat :=
  let p := h.nextAlloc
  ({ h with nextAlloc := p + 1, mem := (p, bytes) :: h.mem }, p)

/-- Mint a fresh VM value handle. -/
def newValue (h : Host) : Host × Nat :=
  let v := h.nextAlloc
  ({ h with nextAlloc := v + 1 }, v)

/-- `napi_create_reference(value, 1)`: mint a persistent reference handle. -/
def newRef (h : Host) (napi_val : Nat) : Host × Nat :=
  let r := h.nextAlloc
  ({ h with nextAlloc := r + 1, refs := (r, napi_val) :: h.refs }, r)

/-- `napi_adjust_external_memory`: move the accounting counter by `delta`. -/
def napi_adjust_external_memory (h : Host) (delta : Int) : Host :=
  { h with heapDelta := h.heapDelta + delta }

/-- `napi_create_arraybuffer(len)`: allocate a zero-initialised VM-owned
region of `byte_length` bytes; returns the data pointer and the value. -/
def napi_create_arraybuffer (h : Host) (byte_length : Nat) : Host × Nat × Nat :=
  let (h, data_ptr) := hostAlloc h (List.replicate byte_length 0)
  let (h, value) := newValue h
  (h, data_ptr, value)

/-- `napi_create_buffer_copy(src)`: allocate a VM-owned region holding a copy
of the source bytes; returns the data pointer and the value. -/
def napi_create_buffer_copy (h : Host) (src : List Nat) : Host × Nat × Nat :=
  let (h, data_ptr) := hostAlloc h src
  let (h, value) := newValue h
  (h, data_ptr, value)

/-- `register_backing_ptr` acting on the current thread's `BUFFER_DATA` set:
null pointers are ignored, a duplicate insertion is the fatal panic of the
source (modelled by the `panicked` flag). -/
def hostRegister (h : Host) (p : Nat) : Host :=
  if p = 0 then h
  else if p ∈ h.registry then { h with panicked := true }
  else { h with registry := p :: h.registry }

/-- `unregister_backing_ptr` on the current thread's `BUFFER_DATA` set. -/
def hostUnregister (h : Host) (p : Nat) : Host :=
  if p = 0 then h else { h with registry := h.registry.erase p }

/-- `Vec::from_raw_parts` followed by `drop`: the allocation is returned to
Rust and freed. -/
def hostFreeVec (h : Host) (p : Nat) : Host :=
  { h with mem := h.mem.filter (fun e => !(e.1 == p)) }

/-- A Rust slice (`&[u8]` / `&mut [u8]`): base pointer and length.  The empty
slice is `⟨danglingPtr, 0⟩`. -/
structure SliceRef where
  ptr : Nat
  len : Nat
deriving DecidableEq, Repr

/-- The bytes a slice view denotes in a host state. -/
def viewIn (h : Host) (s : SliceRef) : List Nat :=
  (memRead h s.ptr).take s.len

/-! ### The debug backing-pointer registry (`register_backing_ptr` / `unregister_backing_ptr`)

The source declares `BUFFER_DATA` with `thread_local!`; each thread owns an
independent `HashSet<*mut u8>`.  The model below is indexed by a thread id. -/

/-- Per-thread `BUFFER_DATA` sets: thread id paired with that thread's set of
registered pointers.  Lookup takes the first entry for a thread. -/
def Registry := List (Nat × List Nat)
deriving DecidableEq, Repr

/-- The set of pointers thread `t` has registered. -/
def threadSet (r : Registry) (t : Nat) : List Nat :=
  (List.lookup t r).getD []

/-- Outcome of `register_backing_ptr`: the updated registry, or the fatal
panic raised on inserting a duplicate. -/
inductive RegOutcome where
  | ok (r : Registry)
  | panicked
deriving DecidableEq, Repr

/-- `register_backing_ptr(ptr)` running on thread `t`: null pointers are
ignored ("0-length buffers use NULL"); inserting a pointer already present in
the thread's set panics. -/
def register_backing_ptr (r : Registry) (t p : Nat) : RegOutcome :=
  if p = 0 then RegOutcome.ok r
  else if p ∈ threadSet r t then RegOutcome.panicked
  else RegOutcome.ok ((t, p :: threadSet r t) :: r)

/-- `unregister_backing_ptr(ptr)` running on thread `t`. -/
def unregister_backing_ptr (r : Registry) (t p : Nat) : Registry :=
  if p = 0 then r else (t, (threadSet r t).erase p) :: r

/-! ### `TypedArrayType` -/

/-- `TypedArrayType` from `arraybuffer.rs`. -/
inductive TypedArrayType where
  | Int8
  | Uint8
  | Uint8Clamped
  | Int16
  | Uint16
  | Int32
  | Uint32
  | Float32
  | Float64
  | BigInt64
  | BigUint64
  | Unknown
deriving DecidableEq, Repr

/-- The `#[repr(i32)]` discriminants (`impl From<TypedArrayType> for
napi_typedarray_type`). -/
def TypedArrayType.toI32 : TypedArrayType → Int
  | TypedArrayType.Int8 => 0
  | TypedArrayType.Uint8 => 1
  | TypedArrayType.Uint8Clamped => 2
  | TypedArrayType.Int16 => 3
  | TypedArrayType.Uint16 => 4
  | TypedArrayType.Int32 => 5
  | TypedArrayType.Uint32 => 6
  | TypedArrayType.Float32 => 7
  | TypedArrayType.Float64 => 8
  | TypedArrayType.BigInt64 => 9
  | TypedArrayType.BigUint64 => 10
  | TypedArrayType.Unknown => 1024

/-- `impl AsRef<str> for TypedArrayType`. -/
def TypedArrayType.asRef : TypedArrayType → String
  | TypedArrayType.Int8 => "Int8"
  | TypedArrayType.Uint8 => "Uint8"
  | TypedArrayType.Uint8Clamped => "Uint8Clamped"
  | TypedArrayType.Int16 => "Int16"
  | TypedArrayType.Uint16 => "Uint16"
  | TypedArrayType.Int32 => "Int32"
  | TypedArrayType.Uint32 => "Uint32"
  | TypedArrayType.Float32 => "Float32"
  | TypedArrayType.Float64 => "Float64"
  | TypedArrayType.BigInt64 => "BigInt64"
  | TypedArrayType.BigUint64 => "BigUint64"
  | TypedArrayType.Unknown => "Unknown"

/-- `impl From<sys::napi_typedarray_type> for TypedArrayType`. -/
def typedArrayTypeOfI32 (value : Int) : TypedArrayType :=
  if value = 0 then TypedArrayType.Int8
  else if value = 1 then TypedArrayType.Uint8
  else if value = 2 then TypedArrayType.Uint8Clamped
  else if value = 3 then TypedArrayType.Int16
  else if value = 4 then TypedArrayType.Uint16
  else if value = 5 then TypedArrayType.Int32
  else if value = 6 then TypedArrayType.Uint32
  else if value = 7 then TypedArrayType.Float32
  else if value = 8 then TypedArrayType.Float64
  else if value = 9 then TypedArrayType.BigInt64
  else if value = 10 then TypedArrayType.BigUint64
  else TypedArrayType.Unknown

/-! ### The wrapper types -/

/-- `ArrayBuffer<'env>`: a VM value plus a borrowed byte view. -/
structure ArrayBuffer where
  value : Nat
  env : Nat
  data : SliceRef
deriving DecidableEq, Repr

/-- `BufferSlice<'env>`: a VM `Buffer` value plus a borrowed byte view. -/
structure BufferSlice where
  inner : SliceRef
  raw_value : Nat
  env : Nat
deriving DecidableEq, Repr

/-- The `$slice_type` family generated by `impl_from_slice!`
(`Uint8ArraySlice`, `Int32ArraySlice`, ...): a `NonNull` element pointer, an
element count, the VM typed-array value, and the environment. -/
structure TypedArraySlice where
  inner : Nat
  length : Nat
  raw_value : Nat
  env : Nat
deriving DecidableEq, Repr

/-- `Uint8ClampedSlice<'scope>` (written out by hand in the source, not by
the macro). -/
structure Uint8ClampedSlice where
  inner : Nat
  length : Nat
  raw_value : Nat
  env : Nat
deriving DecidableEq, Repr

/-- The `$name` family generated by `impl_typed_array!` (`Uint8Array`,
`Int32Array`, ...).  `has_finalizer_notify` records whether the
`finalizer_notify: Option<Box<dyn FnOnce>>` field is `Some`. -/
structure OwnedTypedArray where
  data : Nat
  length : Nat
  byte_offset : Nat
  raw : Option (Nat × Nat)
  has_finalizer_notify : Bool
  owned_by_rust : Bool
deriving DecidableEq, Repr

/-- The long-lived `Buffer` of `buffer.rs`. -/
structure Buffer where
  inner : Nat
  len : Nat
  capacity : Nat
  raw : Option (Nat × Nat)
  owned_by_rust : Bool
deriving DecidableEq, Repr

/-- `napi_get_buffer_info` output: data pointer and byte length. -/
structure BufferInfo where
  data : Nat
  len : Nat
deriving DecidableEq, Repr

/-- `napi_get_typedarray_info` output. -/
structure TypedarrayInfo where
  typed_array_type : Int
  length : Nat
  data : Nat
  byte_offset : Nat
deriving DecidableEq, Repr

/-! ### Operations and events emitted by drops and finalizers -/

/-- VM API calls a drop / transfer can perform. -/
inductive VmOp where
  | create_reference (v : Nat) (count : Nat)
  | get_reference_value (r : Nat)
  | delete_reference (r : Nat)
  | reference_unref (r : Nat)
  | post_finalizer (r : Nat)
  | call_threadsafe (r : Nat)
deriving DecidableEq, Repr

/-- Actions a `Drop` implementation performs: native callback invocation,
native deallocation, or a VM API call. -/
inductive DropOp where
  | notify_callback (p : Nat) (len : Nat)
  | free_vec (p : Nat)
  | vm (op : VmOp)
deriving DecidableEq, Repr

/-- Whether a drop action touches the VM. -/
def DropOp.isVm : DropOp → Bool
  | DropOp.vm _ => true
  | _ => false

/-- Externally observable events of a `from_external` call; the caller's
`finalize_callback` firing is the one the claims care about. -/
inductive ExtEvent where
  | finalizeCallback
deriving DecidableEq, Repr

/-- Events of the two C finalizer callbacks in `arraybuffer.rs`. -/
inductive FinEvent where
  | set_flag (b : Bool)
  | adjust_external_memory (delta : Int)
  | unregister_ptr (p : Nat)
  | free_vec (p : Nat)
  | drop_data
deriving DecidableEq, Repr

/-- Whether an event touches the `IN_FINALISER` flag. -/
def FinEvent.isSetFlag : FinEvent → Bool
  | FinEvent.set_flag _ => true
  | _ => false

/-! ### The copy-path constructors -/

/-- `ArrayBuffer::copy_from` (`arraybuffer.rs` 296-322): calls
`napi_create_arraybuffer(len)` and wraps the freshly allocated region.  The
source contains no copy of the input bytes into `underlying_data`. -/
def ArrayBuffer.copy_from (h : Host) (envp : Nat) (data : List Nat) : Host × ArrayBuffer :=
  let len := data.length
  let (h, underlying_data, arraybuffer_value) := napi_create_arraybuffer h len
  (h, { value := arraybuffer_value, env := envp,
        data := if len = 0 then ⟨danglingPtr, 0⟩ else ⟨underlying_data, len⟩ })

/-- `BufferSlice::copy_from` (`buffer.rs` 209-242): calls
`napi_create_buffer_copy`, which duplicates the source bytes, and wraps the
resulting backing store. -/
def BufferSlice.copy_from (h : Host) (envp : Nat) (data : List Nat) : Host × BufferSlice :=
  let len := data.length
  let (h, result_ptr, js_value) := napi_create_buffer_copy h data
  (h, { inner := if len = 0 then ⟨danglingPtr, 0⟩ else ⟨result_ptr, len⟩,
        raw_value := js_value, env := envp })

/-- `$slice_type::copy_from` from `impl_from_slice!` (`arraybuffer.rs`
1031-1070): calls `napi_create_arraybuffer(len)` — `len` is the element
count, passed as the byte length — then `napi_create_typedarray`; no copy of
the input elements is performed.  (`Uint8ClampedSlice::copy_from`,
1756-1795, is textually identical with element type `u8`.) -/
def slice_copy_from (h : Host) (envp : Nat) (_typ : TypedArrayType) (data : List Nat) :
    Host × TypedArraySlice :=
  let len := data.length
  let (h, underlying_data, _arraybuffer_value) := napi_create_arraybuffer h len
  let (h, napi_val) := newValue h
  (h, { inner := if len = 0 then danglingPtr else underlying_data,
        length := len, raw_value := napi_val, env := envp })

/-! ### The `from_data` constructors and their finalizers -/

/-- `$slice_type::from_data` from `impl_from_slice!` (`arraybuffer.rs`
858-936), parametrised by `size_of::<$rust_type>()`.  On the zero-copy path
the host adopts the `Vec`'s memory and the boxed hint `(len_elems, cap)` is
handed to the VM together with `finalize_slice`; the returned option is that
hint (`none` when the fallback copy ran and no external finalizer was
registered).  Heap accounting is incremented by `len_bytes` before the bind
attempt. -/
def fromData_slice (h : Host) (envp : Nat) (elemSize : Nat) (data : RVec) :
    Host × TypedArraySlice × Option (Nat × Nat) :=
  let inner_ptr := data.ptr
  let len_elems := data.elems.length
  let len_bytes := len_elems * elemSize
  let h := napi_adjust_external_memory h (Int.ofNat len_bytes)
  if h.externalAllowed then
    let (h, buf) := newValue h
    let h := if len_elems ≠ 0 then hostRegister h inner_ptr else h
    let (h, napi_val) := newValue h
    let _ := buf
    (h, { inner := if len_elems = 0 then danglingPtr else inner_ptr,
          length := len_elems, raw_value := napi_val, env := envp },
     some (len_elems, data.cap))
  else
    let (h, underlying_data, _buf) := napi_create_arraybuffer h len_bytes
    let h := memCopy h inner_ptr underlying_data len_bytes
    let h := hostFreeVec h inner_ptr
    let inner_ptr := underlying_data
    let h := if len_elems ≠ 0 then hostRegister h inner_ptr else h
    let (h, napi_val) := newValue h
    (h, { inner := if len_elems = 0 then danglingPtr else inner_ptr,
          length := len_elems, raw_value := napi_val, env := envp },
     none)

/-- `finalize_slice::<Data>` (`arraybuffer.rs` 1395-1409): unregister the
backing pointer, rebuild and drop the `Vec` from `(length, cap)`, then
decrement the external-memory counter by `length` — the element count stored
in the hint, not the byte count. -/
def finalize_slice (h : Host) (finalize_data : Nat) (hint : Nat × Nat) : Host :=
  let h := hostUnregister h finalize_data
  let h := hostFreeVec h finalize_data
  napi_adjust_external_memory h (-(Int.ofNat hint.1))

/-- Trace of the generic `finalizer::<Data, T>` callback (`arraybuffer.rs`
1376-1393): set `IN_FINALISER`, adjust the external-memory counter by
`-byte_len` when the env pointer is non-null, drop the boxed handle, clear
`IN_FINALISER`. -/
def finalizer_trace (env_is_null : Bool) (byte_len : Nat) : List FinEvent :=
  FinEvent.set_flag true ::
    ((if env_is_null then []
      else [FinEvent.adjust_external_memory (-(Int.ofNat byte_len))]) ++
     [FinEvent.drop_data, FinEvent.set_flag false])

/-- Trace of `finalize_slice::<Data>` (`arraybuffer.rs` 1395-1409): it
unregisters, frees and adjusts accounting without ever touching
`IN_FINALISER`. -/
def finalize_slice_trace (finalize_data : Nat) (length cap : Nat) : List FinEvent :=
  let _ := cap
  [FinEvent.unregister_ptr finalize_data, FinEvent.free_vec finalize_data,
   FinEvent.adjust_external_memory (-(Int.ofNat length))]

/-- `BufferSlice::from_data` (`buffer.rs` 77-134).  Zero-length input takes
the early `napi_create_buffer` path and registers nothing; otherwise the
external bind is attempted with fallback to `napi_create_buffer_copy`, and
the final backing pointer is registered. -/
def BufferSlice.from_data (h : Host) (envp : Nat) (data : RVec) : Host × BufferSlice :=
  let len := data.elems.length
  let h := napi_adjust_external_memory h (Int.ofNat len)
  if len = 0 then
    let (h, js_value) := newValue h
    (h, { inner := ⟨danglingPtr, 0⟩, raw_value := js_value, env := envp })
  else
    let src_ptr := data.ptr
    if h.externalAllowed then
      let (h, js_value) := newValue h
      let backing_ptr := src_ptr
      let h := hostRegister h backing_ptr
      (h, { inner := ⟨backing_ptr, len⟩, raw_value := js_value, env := envp })
    else
      let (h, copy_ptr, js_value) := napi_create_buffer_copy h data.elems
      let backing_ptr := copy_ptr
      let h := hostRegister h backing_ptr
      (h, { inner := ⟨backing_ptr, len⟩, raw_value := js_value, env := envp })

/-- `Uint8ClampedSlice::from_data` (`arraybuffer.rs` 1595-1666).  Unlike the
macro-generated `from_data` and `ArrayBuffer::from_data`, the
`register_backing_ptr(inner_ptr)` call here is not guarded by `len != 0`:
the final backing pointer is registered unconditionally. -/
def Uint8ClampedSlice.from_data (h : Host) (envp : Nat) (data : RVec) :
    Host × Uint8ClampedSlice :=
  let inner_ptr := data.ptr
  let len := data.elems.length
  let h := napi_adjust_external_memory h (Int.ofNat len)
  if h.externalAllowed then
    let (h, buf) := newValue h
    let h := hostRegister h inner_ptr
    let (h, napi_val) := newValue h
    let _ := buf
    (h, { inner := if len = 0 then danglingPtr else inner_ptr,
          length := len, raw_value := napi_val, env := envp })
  else
    let (h, underlying_data, _buf) := napi_create_arraybuffer h len
    let h := memCopy h inner_ptr underlying_data len
    let h := hostFreeVec h inner_ptr
    let inner_ptr := underlying_data
    let h := hostRegister h inner_ptr
    let (h, napi_val) := newValue h
    (h, { inner := if len = 0 then danglingPtr else inner_ptr,
          length := len, raw_value := napi_val, env := envp })

/-! ### The `from_external` constructors -/

/-- `BufferSlice::from_external` (`buffer.rs` 152-207).  After the fallback
copy the source reassigns `status` to the result of
`napi_create_buffer_copy`, so the later re-test
`status == napi_no_external_buffers_allowed` used to pick the registry
pointer is false and the original `data` pointer is tracked; the returned
slice is built from `buf` — the `napi_value` — in both paths. -/
def BufferSlice.from_external (h : Host) (envp data len : Nat) :
    Except ErrorH (Host × BufferSlice × List ExtEvent) :=
  if data = 0 ∨ data = EMPTY_VEC_ptr then
    Except.error { status := Status.InvalidArg,
                   reason := "Borrowed data should not be null" }
  else
    let status0 := if h.externalAllowed then NapiStatus.napi_ok
                   else NapiStatus.napi_no_external_buffers_allowed
    let step : Host × NapiStatus × Nat × Nat × List ExtEvent :=
      if status0 = NapiStatus.napi_no_external_buffers_allowed then
        let (h, copied_ptr, buf) := napi_create_buffer_copy h ((memRead h data).take len)
        (h, NapiStatus.napi_ok, buf, copied_ptr, [ExtEvent.finalizeCallback])
      else
        let (h, buf) := newValue h
        (h, status0, buf, 0, [])
    let (h, status, buf, copied_ptr, events) := step
    let ptr_to_track := if status = NapiStatus.napi_no_external_buffers_allowed
                        then copied_ptr else data
    let h := hostRegister h ptr_to_track
    Except.ok (h,
      { inner := if len = 0 then ⟨danglingPtr, 0⟩ else ⟨buf, len⟩,
        raw_value := buf, env := envp },
      events)

/-- `Uint8ClampedSlice::from_external` (`arraybuffer.rs` 1686-1753).  The
original `data` pointer is registered before the bind attempt; on host
refusal the bytes are copied into a fresh arraybuffer and the caller's
`finalize_callback` is invoked before the function returns; the returned
wrapper's `inner` is built from `data` unconditionally. -/
def Uint8ClampedSlice.from_external (h : Host) (envp data len : Nat) :
    Except ErrorH (Host × Uint8ClampedSlice × List ExtEvent) :=
  if data = 0 ∨ data = EMPTY_VEC_ptr then
    Except.error { status := Status.InvalidArg,
                   reason := "Borrowed data should not be null" }
  else
    let h := hostRegister h data
    let status0 := if h.externalAllowed then NapiStatus.napi_ok
                   else NapiStatus.napi_no_external_buffers_allowed
    let step : Host × NapiStatus × Nat × List ExtEvent :=
      if status0 = NapiStatus.napi_no_external_buffers_allowed then
        let (h, underlying_data, _abv) := napi_create_arraybuffer h len
        let h := memCopy h data underlying_data len
        (h, NapiStatus.napi_ok, underlying_data, [ExtEvent.finalizeCallback])
      else
        let (h, _abv) := newValue h
        (h, status0, 0, [])
    let (h, _status, _underlying_data, events) := step
    let (h, napi_val) := newValue h
    Except.ok (h,
      { inner := if len = 0 then danglingPtr else data,
        length := len, raw_value := napi_val, env := envp },
      events)

/-! ### Reading VM values back into native wrappers -/

/-- `FromNapiValue for $name` from `impl_typed_array!` (`arraybuffer.rs`
593-634): on element-kind mismatch the error message is built with
`stringify!($name)` and `TypedArrayType::from(typed_array_type).as_ref()`,
so it names both the expected and the actual kind. -/
def fromNapiValue_typed_array (name : String) (expected : TypedArrayType)
    (info : TypedarrayInfo) : Except ErrorH OwnedTypedArray :=
  if info.typed_array_type ≠ expected.toI32 then
    Except.error { status := Status.InvalidArg,
                   reason := "Expected " ++ name ++ ", got " ++
                     (typedArrayTypeOfI32 info.typed_array_type).asRef ++ "Array" }
  else
    Except.ok { data := info.data, length := info.length,
                byte_offset := info.byte_offset, raw := none,
                has_finalizer_notify := false, owned_by_rust := false }

/-- `FromNapiValue for $slice_type` from `impl_from_slice!` (`arraybuffer.rs`
1155-1201): on mismatch the message is the literal
`format!("Expected $name, got {}", typed_array_type)` — `$name` is inside a
string literal, so the macro does not substitute it, and the actual kind is
printed as the raw `i32` code.  On success a zero length yields
`NonNull::dangling()`.  (`Uint8ClampedSlice`'s hand-written
`from_napi_value`, 1493-1531, has the same shape and the same message.) -/
def fromNapiValue_slice (expected : TypedArrayType) (envp napi_val : Nat)
    (info : TypedarrayInfo) : Except ErrorH TypedArraySlice :=
  if info.typed_array_type ≠ expected.toI32 then
    Except.error { status := Status.InvalidArg,
                   reason := "Expected $name, got " ++ toString info.typed_array_type }
  else
    Except.ok { inner := if info.length = 0 then danglingPtr else info.data,
                length := info.length, raw_value := napi_val, env := envp }

/-- `FromNapiValue for BufferSlice` (`buffer.rs` 264-289): a zero length
yields the empty slice `&mut []`, never the host's (possibly null) data
pointer. -/
def BufferSlice.from_napi_value (envp napi_val : Nat) (info : BufferInfo) : BufferSlice :=
  { inner := if info.len = 0 then ⟨danglingPtr, 0⟩ else ⟨info.data, info.len⟩,
    raw_value := napi_val, env := envp }

/-- `FromNapiValue for Buffer` (`buffer.rs` 547-575): reads the buffer info,
acquires one persistent reference with initial count 1, and stores
`NonNull::dangling()` when the length is 0. -/
def Buffer.from_napi_value (h : Host) (envp napi_val : Nat) (info : BufferInfo) :
    Host × Buffer × List VmOp :=
  let (h, reference) := newRef h napi_val
  (h,
   { inner := if info.len = 0 then danglingPtr else info.data,
     len := info.len, capacity := info.len,
     raw := some (reference, envp), owned_by_rust := false },
   [VmOp.create_reference napi_val 1])

/-- `as_ref` / `Deref` for `Buffer`: `slice::from_raw_parts(inner, len)`. -/
def Buffer.as_ref (h : Host) (self : Buffer) : List Nat :=
  (memRead h self.inner).take self.len

/-! ### `Buffer::to_napi_value` and the `Drop` implementations -/

/-- Result of `ToNapiValue for Buffer`: the host, the mutated native handle
(the source takes `mut val`), the returned `napi_value`, and the VM
reference operations performed. -/
structure ToNapiResult where
  host : Host
  val : Buffer
  ret : Nat
  ops : List VmOp
deriving DecidableEq, Repr

/-- `ToNapiValue for Buffer` (`buffer.rs` 578-637).  When the buffer came
from a VM value (`raw` is `Some`), the value is read back from the
reference, the reference is deleted, and the handle is neutralized:
`val.raw = Some((null, null))`.  Otherwise the `Vec`-backed path binds or
copies the native bytes. -/
def Buffer.to_napi_value (h : Host) (envp : Nat) (val : Buffer) : ToNapiResult :=
  let _ := envp
  match val.raw with
  | some (ref_, _) =>
    { host := { h with refs := h.refs.filter (fun e => !(e.1 == ref_)) },
      val := { val with raw := some (0, 0) },
      ret := (h.refs.lookup ref_).getD 0,
      ops := [VmOp.get_reference_value ref_, VmOp.delete_reference ref_] }
  | none =>
    if val.len = 0 then
      let (h, ret) := newValue h
      { host := h, val := val, ret := ret, ops := [] }
    else if h.externalAllowed then
      let (h, ret) := newValue h
      { host := h, val := { val with owned_by_rust := false }, ret := ret, ops := [] }
    else
      let (h, _copy_ptr, ret) := napi_create_buffer_copy h ((memRead h val.inner).take val.len)
      { host := h, val := val, ret := ret, ops := [] }

/-- `Drop for Buffer` (`buffer.rs` 360-454).  `none` models the panic of
`self.raw.unwrap()`.  `unref_result` is the count `napi_reference_unref`
reports; `napi9` selects the `node_api_post_finalizer` branch over the
threadsafe-function trampoline.  This drop never consults `IN_FINALISER`. -/
def Buffer.drop (ts : ThreadState) (napi9 : Bool) (self : Buffer)
    (unref_result : Nat) (tsfn_destroyed : Bool) : Option (List DropOp) :=
  if self.raw.isNone && self.owned_by_rust then
    some [DropOp.free_vec self.inner]
  else
    match self.raw with
    | none => none
    | some (ref_, _envp) =>
      if ref_ = 0 then some []
      else
        let ops := [DropOp.vm (VmOp.reference_unref ref_)]
        if unref_result ≠ 0 then some ops
        else if napi9 then
          if !ts.threads_can_access_env then some ops
          else some (ops ++ [DropOp.vm (VmOp.post_finalizer ref_)])
        else
          if tsfn_destroyed then some ops
          else if !ts.threads_can_access_env then
            some (ops ++ [DropOp.vm (VmOp.call_threadsafe ref_)])
          else some ops

/-- `Drop for $name` from `impl_typed_array!` (`arraybuffer.rs` 386-431):
run the notify callback when Rust owns the data, free the `Vec` when there
is no `napi_ref`, and — when a reference is held and its env pointer is
non-null — unref and delete it, unless `IN_FINALISER` is set, in which case
the reference is deliberately leaked. -/
def OwnedTypedArray.drop (ts : ThreadState) (self : OwnedTypedArray) : List DropOp :=
  let cb_ops := if self.owned_by_rust && self.has_finalizer_notify
    then [DropOp.notify_callback self.data self.length] else []
  let free_ops := if self.raw.isNone && self.owned_by_rust && !(self.data == 0)
    then [DropOp.free_vec self.data] else []
  match self.raw with
  | none => cb_ops ++ free_ops
  | some (reference, envp) =>
    if envp = 0 then cb_ops ++ free_ops
    else if ts.in_finaliser then cb_ops ++ free_ops
    else cb_ops ++ free_ops ++
      [DropOp.vm (VmOp.reference_unref reference),
       DropOp.vm (VmOp.delete_reference reference)]

/-! ### Concrete runs used to settle the claims -/

/-- `ArrayBuffer::copy_from(env, [1, 2, 3])`. -/
def c1ab : Host × ArrayBuffer := ArrayBuffer.copy_from (initHost true) 0 [1, 2, 3]

/-- `Uint8ArraySlice::copy_from(env, [1, 2, 3])`. -/
def c1sl : Host × TypedArraySlice :=
  slice_copy_from (initHost true) 0 TypedArrayType.Uint8 [1, 2, 3]

/-- `BufferSlice::copy_from(env, [1, 2, 3])`. -/
def c1bs : Host × BufferSlice := BufferSlice.copy_from (initHost true) 0 [1, 2, 3]

/-- `Int32ArraySlice::from_data` (element size 4) on a three-element `Vec`
whose heap pointer is 100, over a host that accepts external buffers. -/
def c2bind : Host × TypedArraySlice × Option (Nat × Nat) :=
  fromData_slice (initHost true) 0 4 ⟨100, [10, 20, 30], 3⟩

/-- A host that refuses external buffers, with a 3-byte native region
`[9, 9, 9]` at pointer 100. -/
def c3host : Host := { initHost false with mem := [(100, [9, 9, 9])] }

/-- `Uint8ClampedSlice::from_external(env, 100, 3, ...)` on the refusing
host. -/
def c3uc : Except ErrorH (Host × Uint8ClampedSlice × List ExtEvent) :=
  Uint8ClampedSlice.from_external c3host 0 100 3

/-- `BufferSlice::from_external(env, 100, 3, ...)` on the refusing host. -/
def c3bs : Except ErrorH (Host × BufferSlice × List ExtEvent) :=
  BufferSlice.from_external c3host 0 100 3

/-- Extract the registry of a successful registration (empty on panic). -/
def regOk : RegOutcome → Registry
  | RegOutcome.ok r => r
  | RegOutcome.panicked => []

/-! ### Claim theorems -/

/-- Claim C1 (code bug): `ArrayBuffer::copy_from` and the macro-generated
`$slice_type::copy_from` allocate a fresh zero-initialised ArrayBuffer and
never copy the source bytes into it, so the resulting VM-owned contents are
`[0, 0, 0]`, not the source `[1, 2, 3]`; only `BufferSlice::copy_from`
(which goes through `napi_create_buffer_copy`) produces byte-identical
contents. -/
theorem C1_copy_from_does_not_copy :
    viewIn c1ab.1 c1ab.2.data = [0, 0, 0] ∧
    viewIn c1ab.1 c1ab.2.data ≠ [1, 2, 3] ∧
    viewIn c1sl.1 ⟨c1sl.2.inner, c1sl.2.length⟩ = [0, 0, 0] ∧
    viewIn c1bs.1 c1bs.2.inner = [1, 2, 3] :=
  ⟨rfl, by decide, rfl, rfl⟩

/-- Claim C2 (code bug): on the zero-copy path of the macro-generated
`from_data`, heap accounting is incremented by the byte length
(`len_elems * size_of::<$rust_type>()`, here `3 * 4 = 12`) but the hint
stored for `finalize_slice` is the element count `3`, and `finalize_slice`
decrements by that element count — so after bind plus finalize the counter
sits at `9`, not `0`, for any element type wider than one byte. -/
theorem C2_heap_accounting_drift :
    c2bind.1.heapDelta = 12 ∧
    c2bind.2.2 = some (3, 3) ∧
    (finalize_slice c2bind.1 100 (3, 3)).heapDelta = 9 ∧
    (finalize_slice c2bind.1 100 (3, 3)).heapDelta ≠ 0 :=
  ⟨rfl, rfl, rfl, by decide⟩

/-- Claim C3 (code bug): when the host refuses external buffers, the
caller's finalize callback does fire before `from_external` returns, and the
bytes are copied into the fresh VM allocation (pointer 2 holds `[9, 9, 9]`);
but the returned wrapper is backed by the original native pointer 100
(`Uint8ClampedSlice::from_external` uses `data` unconditionally), and
`BufferSlice::from_external` registers the original pointer 100 in the debug
registry — the `status == napi_no_external_buffers_allowed` re-test is dead
because `status` was overwritten by the fallback call — and builds its slice
from the `napi_value` handle 3 rather than the copied backing store. -/
theorem C3_fallback_wrapper_keeps_native_pointer :
    c3uc.map (fun r => (r.2.1.inner, r.2.2)) =
      Except.ok (100, [ExtEvent.finalizeCallback]) ∧
    c3uc.map (fun r => viewIn r.1 ⟨2, 3⟩) = Except.ok [9, 9, 9] ∧
    c3bs.map (fun r => (r.1.registry, r.2.1.inner.ptr, r.2.2)) =
      Except.ok ([100], 3, [ExtEvent.finalizeCallback]) :=
  ⟨rfl, rfl, rfl⟩

/-- Claim C4 (code bug): for the call-scoped slice family the element-kind
mismatch message is the literal string `"Expected $name, got 3"` — the
`$name` metavariable is never substituted inside the string literal and the
actual kind appears only as the raw type code — whereas the owned
typed-array family produces `"Expected Uint8Array, got Int16Array"`, naming
both kinds as the claim requires. -/
theorem C4_slice_mismatch_message_unnamed_kinds :
    fromNapiValue_slice TypedArrayType.Uint8 0 7 ⟨3, 4, 50, 0⟩ =
      Except.error { status := Status.InvalidArg,
                     reason := "Expected $name, got 3" } ∧
    fromNapiValue_typed_array "Uint8Array" TypedArrayType.Uint8 ⟨3, 4, 50, 0⟩ =
      Except.error { status := Status.InvalidArg,
                     reason := "Expected Uint8Array, got Int16Array" } :=
  ⟨rfl, rfl⟩

/-- Claim C5 (confirmed): `Buffer::from_napi_value` performs exactly one
`napi_create_reference` with initial count 1; after `to_napi_value`
transfers the reference back to the VM the handle's `raw` field is
`Some((null, null))`, and dropping that neutralized handle performs no VM
operation and frees nothing. -/
theorem C5_buffer_reference_lifecycle (h : Host) (envp napi_val dataPtr lenB : Nat)
    (ts : ThreadState) (napi9 : Bool) (unref_result : Nat) (tsfn_destroyed : Bool) :
    (Buffer.from_napi_value h envp napi_val ⟨dataPtr, lenB⟩).2.2 =
      [VmOp.create_reference napi_val 1] ∧
    (Buffer.to_napi_value (Buffer.from_napi_value h envp napi_val ⟨dataPtr, lenB⟩).1 envp
        (Buffer.from_napi_value h envp napi_val ⟨dataPtr, lenB⟩).2.1).val.raw = some (0, 0) ∧
    Buffer.drop ts napi9
      (Buffer.to_napi_value (Buffer.from_napi_value h envp napi_val ⟨dataPtr, lenB⟩).1 envp
        (Buffer.from_napi_value h envp napi_val ⟨dataPtr, lenB⟩).2.1).val
      unref_result tsfn_destroyed = some [] :=
  ⟨rfl, rfl, rfl⟩

/-- Claim C6 counterexample: `finalize_slice` — a finalizer callback this
subsystem registers in every macro-generated `from_data` — performs its
whole body (unregister, free, accounting) without ever touching the
`IN_FINALISER` flag, so its entry action is not `set_flag true` and no flag
event occurs in its trace at all. -/
theorem C6_counterexample_finalize_slice_ignores_flag :
    (finalize_slice_trace 100 3 3).head? ≠ some (FinEvent.set_flag true) ∧
    (finalize_slice_trace 100 3 3).filter FinEvent.isSetFlag = [] :=
  ⟨by decide, by decide⟩

/-- Claim C6 amended: the generic `finalizer` callback sets `IN_FINALISER`
to true as its first action and back to false as its last action on its
normal return path; the `finalize_slice` callback never touches the flag. -/
theorem C6_finalizer_flag_discipline :
    (∀ env_is_null byte_len,
      (finalizer_trace env_is_null byte_len).head? = some (FinEvent.set_flag true) ∧
      (finalizer_trace env_is_null byte_len).getLast? = some (FinEvent.set_flag false)) ∧
    (∀ p l c, (finalize_slice_trace p l c).filter FinEvent.isSetFlag = []) := by
  refine ⟨fun e b => ⟨rfl, ?_⟩, fun p l c => rfl⟩
  cases e <;> rfl

/-- Claim C7 counterexample: with `IN_FINALISER` set, dropping a `Buffer`
that holds a live reference still performs `napi_reference_unref` (and here
also `node_api_post_finalizer`) — `Drop for Buffer` never consults the
flag. -/
theorem C7_counterexample_buffer_drop_vm_in_finaliser :
    Buffer.drop ⟨true, true⟩ true ⟨2, 3, 3, some (7, 4), false⟩ 0 false =
      some [DropOp.vm (VmOp.reference_unref 7), DropOp.vm (VmOp.post_finalizer 7)] :=
  rfl

/-- Claim C7 amended: whenever `IN_FINALISER` is true, the typed-array
`Drop` implementations perform no VM API call at all (they leak the
reference for environment teardown); `Drop for Buffer` does not consult the
flag. -/
theorem C7_typed_array_drop_no_vm_in_finaliser (ts : ThreadState) (a : OwnedTypedArray)
    (hf : ts.in_finaliser = true) :
    (OwnedTypedArray.drop ts a).filter DropOp.isVm = [] := by
  rcases a with ⟨d, l, bo, raw, hfn, obr⟩
  cases raw with
  | none =>
    simp only [OwnedTypedArray.drop]
    cases obr <;> cases hfn <;> by_cases hd : d = 0 <;>
      simp [hd, DropOp.isVm, List.filter]
  | some pr =>
    rcases pr with ⟨reference, envp⟩
    by_cases he : envp = 0 <;>
      cases obr <;> cases hfn <;>
        simp [OwnedTypedArray.drop, hf, he, DropOp.isVm, List.filter]

/-- Claim C7 witness: a concrete typed-array handle with a live reference,
dropped with `IN_FINALISER` set, performs no VM call. -/
theorem C7_typed_array_drop_no_vm_witness :
    (OwnedTypedArray.drop ⟨true, true⟩
        ⟨2, 3, 0, some (7, 4), true, true⟩).filter DropOp.isVm = [] :=
  C7_typed_array_drop_no_vm_in_finaliser ⟨true, true⟩ ⟨2, 3, 0, some (7, 4), true, true⟩ rfl

/-- Claim C8 (code bug): a zero-length `Uint8ClampedSlice::from_data`
succeeds with an empty view but registers the empty `Vec`'s dangling pointer
in the debug registry (the `register_backing_ptr` call lacks the `len != 0`
guard every sibling constructor has), so a second zero-length construction
on the same thread hits the duplicate panic; the cited
`BufferSlice::from_data` zero-length path, by contrast, creates no registry
entry. -/
theorem C8_zero_length_registers_dangling_ptr :
    (Uint8ClampedSlice.from_data (initHost true) 0 ⟨danglingPtr, [], 0⟩).1.registry =
      [danglingPtr] ∧
    (Uint8ClampedSlice.from_data (initHost true) 0 ⟨danglingPtr, [], 0⟩).2.length = 0 ∧
    (Uint8ClampedSlice.from_data
        (Uint8ClampedSlice.from_data (initHost true) 0 ⟨danglingPtr, [], 0⟩).1
        0 ⟨danglingPtr, [], 0⟩).1.panicked = true ∧
    (BufferSlice.from_data (initHost true) 0 ⟨danglingPtr, [], 0⟩).1.registry = [] ∧
    (BufferSlice.from_data (initHost true) 0 ⟨danglingPtr, [], 0⟩).2.inner =
      ⟨danglingPtr, 0⟩ :=
  ⟨rfl, rfl, rfl, rfl, rfl⟩

/-- Claim C9 counterexample: `BUFFER_DATA` is `thread_local!`, so
registering pointer 5 on thread 0 and then — while that registration is
still live — registering the same pointer 5 from thread 1 does not panic:
cross-thread aliasing is not detected. -/
theorem C9_counterexample_cross_thread_alias_undetected :
    register_backing_ptr (regOk (register_backing_ptr [] 0 5)) 1 5 ≠
      RegOutcome.panicked := by
  decide

/-- Claim C9 amended: the registry is per-thread: registering a non-null
pointer already present in the same thread's set panics immediately, and
sequential reuse — registering again after `unregister_backing_ptr` removed
the pointer on that thread — succeeds. -/
theorem C9_registry_per_thread (r : Registry) (t p : Nat) (hp : p ≠ 0) :
    (p ∈ threadSet r t → register_backing_ptr r t p = RegOutcome.panicked) ∧
    ((threadSet r t).count p ≤ 1 →
      register_backing_ptr (unregister_backing_ptr r t p) t p ≠ RegOutcome.panicked) := by
  constructor
  · intro hm
    simp [register_backing_ptr, hp, hm]
  · intro hc
    have hts : threadSet (unregister_backing_ptr r t p) t = (threadSet r t).erase p := by
      simp [unregister_backing_ptr, hp, threadSet, List.lookup]
    have hnm : p ∉ (threadSet r t).erase p := by
      intro hmem
      have hpos : 0 < ((threadSet r t).erase p).count p := List.count_pos_iff.mpr hmem
      have hce : ((threadSet r t).erase p).count p = (threadSet r t).count p - 1 :=
        List.count_erase_self p (threadSet r t)
      omega
    simp [register_backing_ptr, hp, hts, hnm]

/-- Claim C9 witness: on one thread, re-registering a live pointer panics,
and re-registering after unregistration succeeds. -/
theorem C9_registry_per_thread_witness :
    register_backing_ptr [(0, [5])] 0 5 = RegOutcome.panicked ∧
    register_backing_ptr (unregister_backing_ptr [(0, [5])] 0 5) 0 5 ≠
      RegOutcome.panicked :=
  ⟨(C9_registry_per_thread [(0, [5])] 0 5 (by decide)).1 (by decide),
   (C9_registry_per_thread [(0, [5])] 0 5 (by decide)).2 (by decide)⟩

/-- Claim C10 (confirmed): when the VM reports length 0, every
`from_napi_value` in the subsystem succeeds with an empty view backed by the
non-null dangling pointer — the possibly-null reported data pointer is never
stored as the slice pointer (for the typed slice family, under its element-
kind check passing). -/
theorem C10_zero_length_from_napi_value (h : Host) (envp napi_val reportedPtr : Nat)
    (expected : TypedArrayType) (info : TypedarrayInfo)
    (hlen : info.length = 0) (hty : info.typed_array_type = expected.toI32) :
    (Buffer.from_napi_value h envp napi_val ⟨reportedPtr, 0⟩).2.1.inner = danglingPtr ∧
    danglingPtr ≠ nullPtr ∧
    Buffer.as_ref h (Buffer.from_napi_value h envp napi_val ⟨reportedPtr, 0⟩).2.1 = [] ∧
    (BufferSlice.from_napi_value envp napi_val ⟨reportedPtr, 0⟩).inner = ⟨danglingPtr, 0⟩ ∧
    viewIn h ⟨danglingPtr, 0⟩ = [] ∧
    fromNapiValue_slice expected envp napi_val info =
      Except.ok { inner := danglingPtr, length := 0, raw_value := napi_val, env := envp } := by
  refine ⟨rfl, by decide, rfl, rfl, rfl, ?_⟩
  simp [fromNapiValue_slice, hty, hlen]

/-- Claim C10 witness: a zero-length `Uint8Array` value whose reported data
pointer is null converts successfully to an empty slice, and a zero-length
`Buffer` stores the dangling pointer. -/
theorem C10_zero_length_witness :
    fromNapiValue_slice TypedArrayType.Uint8 0 7 ⟨1, 0, 0, 0⟩ =
      Except.ok { inner := danglingPtr, length := 0, raw_value := 7, env := 0 } ∧
    (Buffer.from_napi_value (initHost true) 0 7 ⟨0, 0⟩).2.1.inner = danglingPtr := by
  have hmain := C10_zero_length_from_napi_value (initHost true) 0 7 0 TypedArrayType.Uint8
    ⟨1, 0, 0, 0⟩ rfl rfl
  exact ⟨hmain.2.2.2.2.2, hmain.1⟩

end Napi3
